import Mathlib

/-!
# Verification of `add_fffits_metadata.py`

A shallow embedding of the script `add_fffits_metadata.py`, which adds FITS
metadata and a WCS solution to FF image files produced by the RMS meteor
camera software.  FITS headers are modelled as ordered association lists of
key/value pairs (key comparison is exact, as all keys written by the script
are upper-case); numbers are modelled as `Rat`; the external astronomy
libraries (RMS projection routines, astropy time conversions, the WCS fit
serialisation) are modelled as an explicit environment of functions, so the
pipeline is a computable function of that environment and its inputs.
-/

set_option autoImplicit false

attribute [local semireducible] Rat.ofScientific Rat.mul Rat.inv Rat.add Rat.sub

namespace FF

/-- A FITS header card value: string, integer or (rational stand-in for a)
floating point number. -/
inductive FitsValue where
  | vStr (s : String)
  | vInt (n : Int)
  | vRat (q : Rat)
deriving DecidableEq, Repr, Inhabited

/-- Python `value == 0` on a header value, as used in `hdu.header["NAXIS"] == 0`. -/
def FitsValue.eqZero : FitsValue → Bool
  | .vInt n => n == 0
  | .vRat q => q == 0
  | .vStr _ => false

/-- A FITS header: an ordered list of key/value cards (duplicate keys allowed,
as in astropy's `Header`). -/
abbrev Header := List (String × FitsValue)

/-- astropy `key in header`: some card has this keyword. -/
def containsKey : Header → String → Bool
  | [], _ => false
  | kv :: rest, k => kv.1 == k || containsKey rest k

/-- astropy `header[key]`: the value of the first card with this keyword. -/
def lookupKey : Header → String → Option FitsValue
  | [], _ => none
  | kv :: rest, k => if kv.1 == k then some kv.2 else lookupKey rest k

/-- The merge loop of `add_fffits_metadata`:
`for key, value in new_header.items(): if key in hdu.header: continue; hdu.header[key] = value`.
The assignment only runs for keys absent from the (current) target header, so
it appends a new card. -/
def mergeInto (hdu : Header) (newItems : List (String × FitsValue)) : Header :=
  newItems.foldl (fun acc kv => if containsKey acc kv.1 then acc else acc ++ [kv]) hdu

/-- A camera calibration model ("platepar").  Only the fields the script reads
are modelled; `distortion` stands for the remaining pointing/distortion
parameters so that distinct models are distinguishable. -/
structure Platepar where
  X_res : Rat
  Y_res : Rat
  star_list : List (List Rat)
  distortion : List Rat
deriving DecidableEq, Repr, Inhabited

/-- The RMS run configuration fields the script reads. -/
structure Config where
  stationID : String
  fps : Rat
  longitude : Rat
  latitude : Rat
deriving DecidableEq, Repr, Inhabited

/-- A serialized platepar payload, as stored in `platepars_all_recalibrated.json`
(the JSON text that `json.dump` would write). -/
structure Payload where
  raw : String
deriving DecidableEq, Repr, Inhabited

/-- Outcome of the `json.dump` / `Platepar.read` round trip through
`platepar_tmp.cal`: success, or one of the exception classes Python can raise
there.  `fileNotFound` and `keyError` are the classes caught by the script's
`except (FileNotFoundError, KeyError)` clause; `other` stands for any other
exception, which propagates. -/
inductive ReadErr where
  | fileNotFound
  | keyError
  | other
deriving DecidableEq, Repr, Inhabited

/-- An uncaught Python exception escaping `add_fffits_metadata`. -/
inductive RunError where
  | uncaughtError
  | missingNaxis
deriving DecidableEq, Repr, Inhabited

/-- The arguments of the single `fit_wcs(...)` call made per image
(`fit_wcs` lives in `fit_wcs.py`, outside the file under analysis, so only
the call itself is recorded). -/
structure FitCall where
  xs : List Rat
  ys : List Rat
  ras : List Rat
  decs : List Rat
  x0 : Rat
  y0 : Rat
  ra0 : Rat
  dec0 : Rat
  order : Nat
  projWcs : String
deriving DecidableEq, Repr, Inhabited

/-- The environment of external library functions the script calls.  Times are
modelled as rationals (seconds on an absolute scale).  `xyToRaDecPP` returns
only the right-ascension and declination lists of RMS's 4-tuple (the discarded
Julian-date and magnitude outputs are omitted).  `fitWcsToFits` is the
composition of `fit_wcs` (repository code not under analysis) with astropy's
`w.to_fits(relax=True)[0].header`. -/
structure ExtEnv where
  filenameToDatetime : String → Rat
  xyToRaDecPP : List Rat → List Rat → List Rat → List Rat → Platepar → Bool →
    List Rat × List Rat
  timeMjd : Rat → Rat
  timeFits : Rat → String
  plateparRoundTrip : Payload → Except ReadErr Platepar
  fitWcsToFits : FitCall → Header

/-- Python `round(q, 2)` rounds half to even; helper returning the nearest
integer with ties to even. -/
def roundHalfEven (q : Rat) : Int :=
  let f := Rat.floor q
  let frac := q - (f : Rat)
  if frac < 1/2 then f
  else if 1/2 < frac then f + 1
  else if f % 2 = 0 then f else f + 1

/-- Python's builtin `round(q, 2)` (banker's rounding to 2 decimal places),
on the rational model of floats. -/
def pyRound2 (q : Rat) : Rat :=
  (roundHalfEven (q * 100) : Rat) / 100

/-- Python `os.path.basename` (POSIX): the part after the last slash. -/
def basename (s : String) : String :=
  ⟨(s.data.reverse.takeWhile (fun c => c != '/')).reverse⟩

/-- The warning text `f"Using non-recalibrated platepar for {ff_basename}"`. -/
def warnMsg (b : String) : String :=
  "Using non-recalibrated platepar for " ++ b

/-- Modelled from the RMS library (an external dependency, not repository
code): `RMS.Formats.FFfile.getMiddleTimeFF(ff_name, fps)` returns the time of
the middle of the 256-frame FF file, i.e. the timestamp encoded in the
filename plus `(256/2)/fps` seconds. -/
def getMiddleTimeFF (env : ExtEnv) (ff_name : String) (fps : Rat) : Rat :=
  env.filenameToDatetime ff_name + (256 / 2) / fps

/-- The `try`/`except (FileNotFoundError, KeyError)` block resolving the
platepar for one image: look the basename up in the recalibration table,
round-trip the payload through `platepar_tmp.cal`, and on a missing key or a
missing-file error fall back to the given platepar with a warning.  Any other
exception from the round trip propagates. -/
def resolvePlatepar (env : ExtEnv) (platepars_recalibrated : List (String × Payload))
    (ff_basename : String) (fallback_platepar : Platepar) :
    Except RunError (Platepar × List String) :=
  match platepars_recalibrated.find? (fun kv => kv.1 == ff_basename) with
  | none => .ok (fallback_platepar, [warnMsg ff_basename])
  | some kv =>
    match env.plateparRoundTrip kv.2 with
    | .ok pp => .ok (pp, [])
    | .error .fileNotFound => .ok (fallback_platepar, [warnMsg ff_basename])
    | .error .keyError => .ok (fallback_platepar, [warnMsg ff_basename])
    | .error .other => .error .uncaughtError

/-- Lines 61-83 of the script: reference pixel positions from columns 1:3 of
the fallback platepar's `star_list`, their sky coordinates under the resolved
platepar at the FF middle time, the image-centre anchor of the resolved
platepar with its projected sky coordinate, and the fixed fit order 5 and
projection `"ZEA"`. -/
def mkFitCall (env : ExtEnv) (platepar_recalibrated fallback_platepar : Platepar)
    (fftime : Rat) : FitCall :=
  let fit_xy := fallback_platepar.star_list.map (fun row => (row.getD 1 0, row.getD 2 0))
  let xs := fit_xy.map (fun p => p.1)
  let ys := fit_xy.map (fun p => p.2)
  let n := fit_xy.length
  let rd := env.xyToRaDecPP (List.replicate n fftime) xs ys (List.replicate n 1)
    platepar_recalibrated false
  let x0 := platepar_recalibrated.X_res / 2
  let y0 := platepar_recalibrated.Y_res / 2
  let rd0 := env.xyToRaDecPP [fftime] [x0] [y0] [1] platepar_recalibrated false
  { xs := xs, ys := ys, ras := rd.1, decs := rd.2, x0 := x0, y0 := y0,
    ra0 := rd0.1.headD 0, dec0 := rd0.2.headD 0, order := 5, projWcs := "ZEA" }

/-- The fixed metadata dictionary `header_meta` built for one image. -/
def headerMeta (env : ExtEnv) (config : Config) (obstime : Rat) :
    List (String × FitsValue) :=
  [("OBSERVER", .vStr config.stationID.trim),
   ("INSTRUME", .vStr "Global Meteor Network"),
   ("MJD-OBS", .vRat (env.timeMjd obstime)),
   ("DATE-OBS", .vStr (env.timeFits obstime)),
   ("NFRAMES", .vInt 256),
   ("EXPTIME", .vRat (256 / config.fps)),
   ("SITELONG", .vRat (pyRound2 config.longitude)),
   ("SITELAT", .vRat (pyRound2 config.latitude))]

/-- The keyword set of the fixed metadata dictionary. -/
def metaKeys : List String :=
  ["OBSERVER", "INSTRUME", "MJD-OBS", "DATE-OBS", "NFRAMES", "EXPTIME",
   "SITELONG", "SITELAT"]

/-- The body of the per-HDU loop: build the candidate header (empty if the
segment's `NAXIS` is 0, else the WCS header), append the fixed metadata, then
write every candidate key absent from the existing header into it.  A missing
`NAXIS` card raises an uncaught `KeyError` in Python. -/
def processHdu (wcsHdr : Header) (meta : List (String × FitsValue)) (hdu : Header) :
    Except RunError Header :=
  match lookupKey hdu "NAXIS" with
  | none => .error .missingNaxis
  | some v =>
    let newHeader := (if v.eqZero then ([] : Header) else wcsHdr) ++ meta
    .ok (mergeInto hdu newHeader)

/-- The `for hdu in hdu_list` loop, stopping at the first uncaught error. -/
def mapExcept (f : Header → Except RunError Header) :
    List Header → Except RunError (List Header)
  | [] => .ok []
  | h :: t =>
    match f h with
    | .error e => .error e
    | .ok h' =>
      match mapExcept f t with
      | .error e => .error e
      | .ok t' => .ok (h' :: t')

/-- Everything observable about one run of `add_fffits_metadata` on one file:
the resolved platepar, the warnings logged, the FF middle time passed to the
projection calls, the `fit_wcs` call arguments, the metadata observation time,
the fixed metadata dictionary, and the list of headers written back. -/
structure RunResult where
  platepar_used : Platepar
  warnings : List String
  fftime : Rat
  fitCall : FitCall
  obstime : Rat
  header_meta : List (String × FitsValue)
  hdus_out : List Header
deriving Repr, Inhabited

/-- The function `add_fffits_metadata(ff_filename, config, platepars_recalibrated,
fallback_platepar)`.  The FF file's contents stand in as the list of its HDU
headers; the returned `RunResult.hdus_out` is what `hdu_list.writeto` persists. -/
def add_fffits_metadata (env : ExtEnv) (config : Config)
    (platepars_recalibrated : List (String × Payload))
    (fallback_platepar : Platepar) (ff_filename : String) (hdu_list : List Header) :
    Except RunError RunResult :=
  match resolvePlatepar env platepars_recalibrated (basename ff_filename)
      fallback_platepar with
  | .error e => .error e
  | .ok (platepar_recalibrated, warns) =>
    let fftime := getMiddleTimeFF env (basename ff_filename) config.fps
    let fitCall := mkFitCall env platepar_recalibrated fallback_platepar fftime
    let obstime := env.filenameToDatetime (basename ff_filename)
    let meta := headerMeta env config obstime
    match mapExcept (processHdu (env.fitWcsToFits fitCall) meta) hdu_list with
    | .error e => .error e
    | .ok outs =>
      .ok { platepar_used := platepar_recalibrated, warnings := warns,
            fftime := fftime, fitCall := fitCall, obstime := obstime,
            header_meta := meta, hdus_out := outs }

/-! ## Concrete sample data

A fully concrete environment and inputs, used to evaluate the pipeline on
explicit values (for witnesses and counterexamples). -/

/-- A sample fallback platepar with three reference stars
(`star_list` rows are `[intensity, x, y, mag]`-shaped). -/
def ppW : Platepar :=
  { X_res := 1280, Y_res := 720,
    star_list := [[0, 10, 20, 1], [0, 30, 40, 1], [0, 50, 60, 1]],
    distortion := [1] }

/-- A sample configuration. -/
def cfgW : Config :=
  { stationID := " XX0001 ", fps := 25, longitude := 6.425, latitude := 52.815 }

/-- A sample serialized platepar payload. -/
def payloadW : Payload := { raw := "recalibrated" }

/-- A concrete interpretation of the external libraries: simple computable
stand-ins for the projection and time conversions, a platepar round trip that
raises `FileNotFoundError`, and a WCS serialization producing the usual
projection keywords. -/
def envW : ExtEnv :=
  { filenameToDatetime := fun _ => 100
    xyToRaDecPP := fun _ xs ys _ _ _ =>
      (xs.map (fun x => x + 1), ys.map (fun y => y + 2))
    timeMjd := fun t => t / 86400
    timeFits := fun _ => "2023-01-01T00:00:00.000"
    plateparRoundTrip := fun _ => .error .fileNotFound
    fitWcsToFits := fun _ =>
      [("CRVAL1", .vRat 1), ("CRPIX1", .vRat 640), ("CTYPE1", .vStr "RA---ZEA")] }

/-- A sample FF file: a primary header with `NAXIS = 0` and a pre-existing
`OBSERVER` card, and an image segment with `NAXIS = 2` and a pre-existing
`EXPTIME` card. -/
def hdusW : List Header :=
  [[("NAXIS", FitsValue.vInt 0), ("OBSERVER", FitsValue.vStr "old")],
   [("NAXIS", FitsValue.vInt 2), ("EXPTIME", FitsValue.vRat 7)]]

/-- A sample FF file path. -/
def fnameW : String := "night/FF_XX0001_20230101_000000_000.fits"

/-- A sample recalibration table holding one entry. -/
def tableW : List (String × Payload) := [("FF_rec.fits", payloadW)]

/-- The sample run of the pipeline (empty recalibration table). -/
def runW : Except RunError RunResult :=
  add_fffits_metadata envW cfgW [] ppW fnameW hdusW

/-- The result of the sample run. -/
def resW : RunResult := runW.toOption.getD default

/-! ## Basic lemmas about header lookup and the merge loop -/

theorem containsKey_append (a b : Header) (k : String) :
    containsKey (a ++ b) k = (containsKey a k || containsKey b k) := by
  induction a with
  | nil => simp [containsKey]
  | cons kv rest ih => simp [containsKey, ih, Bool.or_assoc]

theorem bool_eq_false {b : Bool} (h : ¬ b = true) : b = false := by
  cases b
  · rfl
  · exact absurd rfl h

theorem lookupKey_eq_none (h : Header) (k : String) (hc : containsKey h k = false) :
    lookupKey h k = none := by
  induction h with
  | nil => rfl
  | cons kv rest ih =>
    simp only [containsKey, Bool.or_eq_false_iff] at hc
    simp [lookupKey, hc.1, ih hc.2]

theorem lookupKey_append_right (a b : Header) (k : String)
    (hc : containsKey a k = false) :
    lookupKey (a ++ b) k = lookupKey b k := by
  induction a with
  | nil => rfl
  | cons kv rest ih =>
    simp only [containsKey, Bool.or_eq_false_iff] at hc
    simp [lookupKey, hc.1, ih hc.2]

theorem lookupKey_append_left (a b : Header) (k : String)
    (hc : containsKey a k = true) :
    lookupKey (a ++ b) k = lookupKey a k := by
  induction a with
  | nil => simp [containsKey] at hc
  | cons kv rest ih =>
    by_cases hk : kv.1 = k
    · simp [lookupKey, hk]
    · simp only [containsKey, Bool.or_eq_true] at hc
      rcases hc with hc | hc
      · exact absurd (by simpa using hc) hk
      · simp [lookupKey, hk, ih hc]

theorem mergeInto_nil (hdu : Header) : mergeInto hdu [] = hdu := rfl

theorem mergeInto_cons (hdu : Header) (kv : String × FitsValue)
    (rest : List (String × FitsValue)) :
    mergeInto hdu (kv :: rest) =
      mergeInto (if containsKey hdu kv.1 then hdu else hdu ++ [kv]) rest := rfl

/-- A key is present after the merge loop iff it was present before or occurs
among the candidate items. -/
theorem mergeInto_containsKey (items : List (String × FitsValue)) (hdu : Header)
    (k : String) :
    containsKey (mergeInto hdu items) k = (containsKey hdu k || containsKey items k) := by
  induction items generalizing hdu with
  | nil => simp [mergeInto_nil, containsKey]
  | cons kv rest ih =>
    rw [mergeInto_cons]
    by_cases hc : containsKey hdu kv.1 = true
    · rw [if_pos hc, ih]
      by_cases hk : kv.1 = k
      · subst hk; simp [containsKey, hc]
      · simp [containsKey, beq_eq_false_iff_ne.mpr hk]
    · rw [if_neg hc, ih, containsKey_append]
      simp [containsKey, Bool.or_assoc]

/-- After the merge loop, a key resolves to its pre-existing value when
present, and otherwise to the first value bound to it among the candidate
items. -/
theorem mergeInto_lookupKey (items : List (String × FitsValue)) (hdu : Header)
    (k : String) :
    lookupKey (mergeInto hdu items) k =
      if containsKey hdu k then lookupKey hdu k else lookupKey items k := by
  induction items generalizing hdu with
  | nil =>
    rw [mergeInto_nil]
    by_cases hc : containsKey hdu k = true
    · rw [if_pos hc]
    · rw [if_neg hc, lookupKey_eq_none hdu k (bool_eq_false hc)]; rfl
  | cons kv rest ih =>
    rw [mergeInto_cons]
    by_cases hc : containsKey hdu kv.1 = true
    · rw [if_pos hc, ih]
      by_cases hck : containsKey hdu k = true
      · rw [if_pos hck, if_pos hck]
      · rw [if_neg hck, if_neg hck]
        have hk : ¬ kv.1 = k := fun he => hck (he ▸ hc)
        simp [lookupKey, hk]
    · have hc' := bool_eq_false hc
      rw [if_neg hc, ih]
      by_cases hk : kv.1 = k
      · subst hk
        have h1 : containsKey (hdu ++ [kv]) kv.1 = true := by
          rw [containsKey_append]; simp [containsKey]
        rw [if_pos h1, if_neg hc,
          lookupKey_append_right hdu [kv] kv.1 hc']
        simp [lookupKey]
      · have h1 : containsKey (hdu ++ [kv]) k = containsKey hdu k := by
          rw [containsKey_append]; simp [containsKey, hk]
        rw [h1]
        by_cases hck : containsKey hdu k = true
        · rw [if_pos hck, if_pos hck, lookupKey_append_left hdu [kv] k hck]
        · rw [if_neg hck, if_neg hck]
          simp [lookupKey, hk]

/-- The per-HDU loop succeeds pointwise: the i-th output header is the result
of processing the i-th input header. -/
theorem mapExcept_ok_get (f : Header → Except RunError Header) (l l' : List Header)
    (h : mapExcept f l = .ok l') (i : Nat) (x : Header) (hx : l.get? i = some x) :
    ∃ y, l'.get? i = some y ∧ f x = .ok y := by
  induction l generalizing l' i with
  | nil => simp at hx
  | cons a t ih =>
    simp only [mapExcept] at h
    cases hf : f a <;> rw [hf] at h
    · simp at h
    case ok a' =>
      cases hm : mapExcept f t <;> rw [hm] at h
      · simp at h
      case ok t' =>
        simp only [Except.ok.injEq] at h
        subst h
        cases i with
        | zero =>
          simp only [List.get?] at hx
          cases hx
          exact ⟨a', rfl, hf⟩
        | succ n =>
          obtain ⟨y, hy, hfy⟩ := ih t' hm n (by simpa using hx)
          exact ⟨y, by simpa using hy, hfy⟩

/-- Inversion of a successful `processHdu`. -/
theorem processHdu_ok (wcsHdr : Header) (meta : List (String × FitsValue))
    (hdu hdu' : Header) (h : processHdu wcsHdr meta hdu = .ok hdu') :
    ∃ v, lookupKey hdu "NAXIS" = some v ∧
      hdu' = mergeInto hdu ((if v.eqZero then ([] : Header) else wcsHdr) ++ meta) := by
  unfold processHdu at h
  cases hn : lookupKey hdu "NAXIS" <;> rw [hn] at h
  · simp at h
  case some v =>
    simp only [Except.ok.injEq] at h
    exact ⟨v, rfl, h.symm⟩

/-- Inversion of a successful run of `add_fffits_metadata`: how each field of
the result is computed. -/
theorem add_ok_inv (env : ExtEnv) (config : Config)
    (table : List (String × Payload)) (fb : Platepar) (fname : String)
    (hdus : List Header) (res : RunResult)
    (h : add_fffits_metadata env config table fb fname hdus = .ok res) :
    resolvePlatepar env table (basename fname) fb = .ok (res.platepar_used, res.warnings) ∧
    res.fftime = getMiddleTimeFF env (basename fname) config.fps ∧
    res.obstime = env.filenameToDatetime (basename fname) ∧
    res.header_meta = headerMeta env config (env.filenameToDatetime (basename fname)) ∧
    res.fitCall = mkFitCall env res.platepar_used fb res.fftime ∧
    mapExcept (processHdu (env.fitWcsToFits res.fitCall) res.header_meta) hdus =
      .ok res.hdus_out := by
  unfold add_fffits_metadata at h
  cases hres : resolvePlatepar env table (basename fname) fb <;> rw [hres] at h
  · simp at h
  case ok pr =>
    obtain ⟨pp, warns⟩ := pr
    simp only at h
    cases hmap : mapExcept
        (processHdu
          (env.fitWcsToFits
            (mkFitCall env pp fb (getMiddleTimeFF env (basename fname) config.fps)))
          (headerMeta env config (env.filenameToDatetime (basename fname))))
        hdus <;> rw [hmap] at h
    · simp at h
    case ok outs =>
      simp only [Except.ok.injEq] at h
      subst h
      exact ⟨rfl, rfl, rfl, rfl, rfl, hmap⟩

/-- A contained key occurs among the header's keywords. -/
theorem mem_of_containsKey (h : Header) (k : String) (hc : containsKey h k = true) :
    k ∈ h.map Prod.fst := by
  induction h with
  | nil => simp [containsKey] at hc
  | cons kv rest ih =>
    simp only [containsKey, Bool.or_eq_true] at hc
    rcases hc with hc | hc
    · have hk : kv.1 = k := by simpa using hc
      rw [List.map_cons, ← hk]
      exact List.mem_cons_self _ _
    · exact List.mem_cons_of_mem _ (ih hc)

/-- The keywords of the fixed metadata dictionary are exactly `metaKeys`. -/
theorem headerMeta_keys (env : ExtEnv) (config : Config) (t : Rat) :
    (headerMeta env config t).map Prod.fst = metaKeys := rfl

/-- `round(q, 2)` lands on a multiple of 1/100: multiplying it by 100 gives
an integer. -/
theorem pyRound2_two_decimals (q : Rat) : (pyRound2 q * 100).den = 1 := by
  unfold pyRound2
  rw [div_mul_cancel₀ _ (by norm_num : (100 : Rat) ≠ 0)]
  exact Rat.den_intCast _

/-! ## The claims -/

/-- C1: the header merge never overwrites: every key already present in a
segment's header before processing has an unchanged value in that segment's
header after `add_fffits_metadata` completes. -/
theorem c1_merge_never_overwrites (env : ExtEnv) (config : Config)
    (table : List (String × Payload)) (fb : Platepar) (fname : String)
    (hdus : List Header) (res : RunResult)
    (h : add_fffits_metadata env config table fb fname hdus = .ok res)
    (i : Nat) (hdu hdu' : Header)
    (hin : hdus.get? i = some hdu) (hout : res.hdus_out.get? i = some hdu')
    (k : String) (hk : containsKey hdu k = true) :
    lookupKey hdu' k = lookupKey hdu k := by
  obtain ⟨-, -, -, -, -, hmap⟩ := add_ok_inv env config table fb fname hdus res h
  obtain ⟨y, hy, hproc⟩ := mapExcept_ok_get _ hdus res.hdus_out hmap i hdu hin
  rw [hout] at hy
  injection hy with hy
  subst hy
  obtain ⟨v, -, hmerge⟩ := processHdu_ok _ _ _ _ hproc
  rw [hmerge, mergeInto_lookupKey, if_pos hk]

/-- C1 witness: in the sample run, the pre-existing `OBSERVER` value of the
first segment is unchanged. -/
theorem c1_witness :
    lookupKey (resW.hdus_out.getD 0 []) "OBSERVER" =
      lookupKey (hdusW.getD 0 []) "OBSERVER" :=
  c1_merge_never_overwrites envW cfgW [] ppW fnameW hdusW resW rfl 0
    (hdusW.getD 0 []) (resW.hdus_out.getD 0 []) rfl rfl "OBSERVER" rfl

/-- C2: the header merge adds absent keys: a key of the computed
fixed-metadata dictionary that is neither in a segment's pre-existing header
nor among the keywords of the WCS serialization ends up in that segment's
header with its computed value. -/
theorem c2_merge_adds_absent (env : ExtEnv) (config : Config)
    (table : List (String × Payload)) (fb : Platepar) (fname : String)
    (hdus : List Header) (res : RunResult)
    (h : add_fffits_metadata env config table fb fname hdus = .ok res)
    (i : Nat) (hdu hdu' : Header)
    (hin : hdus.get? i = some hdu) (hout : res.hdus_out.get? i = some hdu')
    (k : String) (v : FitsValue)
    (hmeta : lookupKey res.header_meta k = some v)
    (habs : containsKey hdu k = false)
    (hwcs : containsKey (env.fitWcsToFits res.fitCall) k = false) :
    lookupKey hdu' k = some v := by
  obtain ⟨-, -, -, -, -, hmap⟩ := add_ok_inv env config table fb fname hdus res h
  obtain ⟨y, hy, hproc⟩ := mapExcept_ok_get _ hdus res.hdus_out hmap i hdu hin
  rw [hout] at hy
  injection hy with hy
  subst hy
  obtain ⟨v', -, hmerge⟩ := processHdu_ok _ _ _ _ hproc
  have hleft : containsKey
      (if v'.eqZero then ([] : Header) else env.fitWcsToFits res.fitCall) k = false := by
    by_cases hvz : v'.eqZero = true
    · rw [if_pos hvz]; rfl
    · rw [if_neg hvz]; exact hwcs
  rw [hmerge, mergeInto_lookupKey, if_neg (by simp [habs]),
    lookupKey_append_right _ _ _ hleft]
  exact hmeta

/-- C2 witness: in the sample run, the image segment (no pre-existing
`SITELONG`) gains `SITELONG` with the computed rounded longitude. -/
theorem c2_witness :
    lookupKey (resW.hdus_out.getD 1 []) "SITELONG" = some (FitsValue.vRat 6.42) :=
  c2_merge_adds_absent envW cfgW [] ppW fnameW hdusW resW rfl 1
    (hdusW.getD 1 []) (resW.hdus_out.getD 1 []) rfl rfl "SITELONG"
    (FitsValue.vRat 6.42) (by decide) rfl rfl

/-- C3 counterexample: the claim "the first header segment contains no WCS
projection keywords after processing, regardless of input" is false: on a
file whose first segment already carries a `CRVAL1` card, the first segment
still contains `CRVAL1` after processing (the merge never removes keys). -/
theorem c3_counterexample :
    (add_fffits_metadata envW cfgW [] ppW "FF_wcskey.fits"
        [[("NAXIS", FitsValue.vInt 0), ("CRVAL1", FitsValue.vRat 99)]]).toOption.map
      (fun r => containsKey (r.hdus_out.headD []) "CRVAL1") = some true := by
  rfl

/-- C3 (amended): for every image whose first header segment has `NAXIS = 0`,
processing adds only fixed-metadata keys to that segment: every key present
afterwards was present before or is one of the eight fixed metadata keys (in
particular no WCS projection keyword is introduced there). -/
theorem c3_first_segment_only_meta_keys (env : ExtEnv) (config : Config)
    (table : List (String × Payload)) (fb : Platepar) (fname : String)
    (hdus : List Header) (res : RunResult)
    (h : add_fffits_metadata env config table fb fname hdus = .ok res)
    (h0 h0' : Header)
    (hin : hdus.get? 0 = some h0) (hout : res.hdus_out.get? 0 = some h0')
    (v : FitsValue) (hnax : lookupKey h0 "NAXIS" = some v) (hz : v.eqZero = true)
    (k : String) (hk : containsKey h0' k = true) :
    containsKey h0 k = true ∨ k ∈ metaKeys := by
  obtain ⟨-, -, -, hmeta, -, hmap⟩ := add_ok_inv env config table fb fname hdus res h
  obtain ⟨y, hy, hproc⟩ := mapExcept_ok_get _ hdus res.hdus_out hmap 0 h0 hin
  rw [hout] at hy
  injection hy with hy
  subst hy
  obtain ⟨v', hnax', hmerge⟩ := processHdu_ok _ _ _ _ hproc
  rw [hnax] at hnax'
  injection hnax' with hv
  subst hv
  rw [hmerge, mergeInto_containsKey, if_pos hz, List.nil_append,
    Bool.or_eq_true] at hk
  rcases hk with hk | hk
  · exact Or.inl hk
  · right
    have := mem_of_containsKey _ _ hk
    rw [hmeta, headerMeta_keys] at this
    exact this

/-- C3 witness (for the amended claim): in the sample run, `MJD-OBS` appears
in the first segment afterwards, and it is indeed a fixed metadata key. -/
theorem c3_witness :
    containsKey (hdusW.getD 0 []) "MJD-OBS" = true ∨ "MJD-OBS" ∈ metaKeys :=
  c3_first_segment_only_meta_keys envW cfgW [] ppW fnameW hdusW resW rfl
    (hdusW.getD 0 []) (resW.hdus_out.getD 0 []) rfl rfl
    (FitsValue.vInt 0) rfl rfl "MJD-OBS" rfl

/-- C4: per-image calibration resolution never aborts the batch: a missing
key in the recalibration table, or a missing-file error during the temp-file
round trip, makes the resolution return normally with the default (fallback)
platepar and the warning naming the image. -/
theorem c4_resolution_never_aborts (env : ExtEnv)
    (table : List (String × Payload)) (b : String) (fb : Platepar)
    (h : table.find? (fun kv => kv.1 == b) = none ∨
      ∃ kv, table.find? (fun kv' => kv'.1 == b) = some kv ∧
        env.plateparRoundTrip kv.2 = .error .fileNotFound) :
    resolvePlatepar env table b fb = .ok (fb, [warnMsg b]) ∧
    warnMsg b = "Using non-recalibrated platepar for " ++ b := by
  refine ⟨?_, rfl⟩
  unfold resolvePlatepar
  rcases h with h | ⟨kv, hfind, hrt⟩
  · rw [h]
  · simp only [hfind, hrt]

/-- C4 witness: with the sample table and an environment whose round trip
raises `FileNotFoundError`, resolution for the listed image still returns the
fallback platepar with the warning. -/
theorem c4_witness :
    resolvePlatepar envW tableW "FF_rec.fits" ppW = .ok (ppW, [warnMsg "FF_rec.fits"]) ∧
    warnMsg "FF_rec.fits" = "Using non-recalibrated platepar for " ++ "FF_rec.fits" :=
  c4_resolution_never_aborts envW tableW "FF_rec.fits" ppW
    (Or.inr ⟨("FF_rec.fits", payloadW), rfl, rfl⟩)

/-- C5 counterexample: in the sample run the time passed to the
sky-projection calls (`fftime`, the FF middle time) differs from the
observation time from which MJD-OBS and DATE-OBS are derived, so the same
observation time is not used for both, contrary to the claim. -/
theorem c5_counterexample :
    ¬ (runW.toOption.map (fun r => r.fftime) =
       runW.toOption.map (fun r => r.obstime)) := by decide

/-- C5 (amended): the metadata observation time is the timestamp decoded from
the image's filename (a deterministic function of the filename) and MJD-OBS
and DATE-OBS derive from it; the sky-projection calls instead use the FF
middle time, which is that timestamp plus `(256/2)/fps` seconds and hence
also depends on the configured frame rate. -/
theorem c5_observation_times (env : ExtEnv) (config : Config)
    (table : List (String × Payload)) (fb : Platepar) (fname : String)
    (hdus : List Header) (res : RunResult)
    (h : add_fffits_metadata env config table fb fname hdus = .ok res) :
    res.obstime = env.filenameToDatetime (basename fname) ∧
    lookupKey res.header_meta "MJD-OBS" = some (.vRat (env.timeMjd res.obstime)) ∧
    lookupKey res.header_meta "DATE-OBS" = some (.vStr (env.timeFits res.obstime)) ∧
    res.fftime = res.obstime + (256 / 2) / config.fps := by
  obtain ⟨-, hff, hobs, hmeta, -, -⟩ := add_ok_inv env config table fb fname hdus res h
  refine ⟨hobs, ?_, ?_, ?_⟩
  · rw [hmeta, hobs]
    rfl
  · rw [hmeta, hobs]
    rfl
  · rw [hff, hobs]
    rfl

/-- C5 witness (for the amended claim), at the sample run. -/
theorem c5_witness :
    resW.obstime = envW.filenameToDatetime (basename fnameW) ∧
    lookupKey resW.header_meta "MJD-OBS" = some (.vRat (envW.timeMjd resW.obstime)) ∧
    lookupKey resW.header_meta "DATE-OBS" = some (.vStr (envW.timeFits resW.obstime)) ∧
    resW.fftime = resW.obstime + (256 / 2) / cfgW.fps :=
  c5_observation_times envW cfgW [] ppW fnameW hdusW resW rfl

/-- C6: the WCS fit correspondences take their pixel positions from the star
list of the fallback platepar (never from the recalibrated model), while
those same positions are projected to the sky under the resolved — possibly
recalibrated — platepar. -/
theorem c6_fit_points_from_fallback (env : ExtEnv) (config : Config)
    (table : List (String × Payload)) (fb : Platepar) (fname : String)
    (hdus : List Header) (res : RunResult)
    (h : add_fffits_metadata env config table fb fname hdus = .ok res) :
    res.fitCall.xs = fb.star_list.map (fun row => row.getD 1 0) ∧
    res.fitCall.ys = fb.star_list.map (fun row => row.getD 2 0) ∧
    res.fitCall.ras =
      (env.xyToRaDecPP (List.replicate fb.star_list.length res.fftime)
        res.fitCall.xs res.fitCall.ys (List.replicate fb.star_list.length 1)
        res.platepar_used false).1 ∧
    res.fitCall.decs =
      (env.xyToRaDecPP (List.replicate fb.star_list.length res.fftime)
        res.fitCall.xs res.fitCall.ys (List.replicate fb.star_list.length 1)
        res.platepar_used false).2 := by
  obtain ⟨-, -, -, -, hfit, -⟩ := add_ok_inv env config table fb fname hdus res h
  rw [hfit]
  unfold mkFitCall
  dsimp only
  simp [List.map_map, List.length_map]

/-- C6 witness: at the sample run (the fallback platepar resolved), the fit
pixel positions are the fallback star list columns. -/
theorem c6_witness :
    resW.fitCall.xs = ppW.star_list.map (fun row => row.getD 1 0) ∧
    resW.fitCall.ys = ppW.star_list.map (fun row => row.getD 2 0) ∧
    resW.fitCall.ras =
      (envW.xyToRaDecPP (List.replicate ppW.star_list.length resW.fftime)
        resW.fitCall.xs resW.fitCall.ys (List.replicate ppW.star_list.length 1)
        resW.platepar_used false).1 ∧
    resW.fitCall.decs =
      (envW.xyToRaDecPP (List.replicate ppW.star_list.length resW.fftime)
        resW.fitCall.xs resW.fitCall.ys (List.replicate ppW.star_list.length 1)
        resW.platepar_used false).2 :=
  c6_fit_points_from_fallback envW cfgW [] ppW fnameW hdusW resW rfl

/-- C7: the computed EXPTIME value is exactly `256 / fps` (exact division in
the rational model of the script's numbers) and NFRAMES is the constant 256,
for any configuration with positive frame rate. -/
theorem c7_exptime_nframes (env : ExtEnv) (config : Config)
    (table : List (String × Payload)) (fb : Platepar) (fname : String)
    (hdus : List Header) (res : RunResult)
    (_hfps : 0 < config.fps)
    (h : add_fffits_metadata env config table fb fname hdus = .ok res) :
    lookupKey res.header_meta "EXPTIME" = some (.vRat (256 / config.fps)) ∧
    lookupKey res.header_meta "NFRAMES" = some (.vInt 256) := by
  obtain ⟨-, -, -, hmeta, -, -⟩ := add_ok_inv env config table fb fname hdus res h
  rw [hmeta]
  exact ⟨rfl, rfl⟩

/-- C7 witness: at the sample run (fps = 25), EXPTIME is `256 / 25` and
NFRAMES is 256. -/
theorem c7_witness :
    lookupKey resW.header_meta "EXPTIME" = some (.vRat (256 / cfgW.fps)) ∧
    lookupKey resW.header_meta "NFRAMES" = some (.vInt 256) :=
  c7_exptime_nframes envW cfgW [] ppW fnameW hdusW resW (by decide) rfl

/-- C8: the computed SITELONG and SITELAT values are the configured longitude
and latitude rounded to 2 decimal places (Python `round(x, 2)`), and the
rounded values are exact multiples of 1/100. -/
theorem c8_site_coordinates_rounded (env : ExtEnv) (config : Config)
    (table : List (String × Payload)) (fb : Platepar) (fname : String)
    (hdus : List Header) (res : RunResult)
    (h : add_fffits_metadata env config table fb fname hdus = .ok res) :
    lookupKey res.header_meta "SITELONG" = some (.vRat (pyRound2 config.longitude)) ∧
    lookupKey res.header_meta "SITELAT" = some (.vRat (pyRound2 config.latitude)) ∧
    (pyRound2 config.longitude * 100).den = 1 ∧
    (pyRound2 config.latitude * 100).den = 1 := by
  obtain ⟨-, -, -, hmeta, -, -⟩ := add_ok_inv env config table fb fname hdus res h
  rw [hmeta]
  exact ⟨rfl, rfl, pyRound2_two_decimals _, pyRound2_two_decimals _⟩

/-- C8 witness, at the sample run. -/
theorem c8_witness :
    lookupKey resW.header_meta "SITELONG" = some (.vRat (pyRound2 cfgW.longitude)) ∧
    lookupKey resW.header_meta "SITELAT" = some (.vRat (pyRound2 cfgW.latitude)) ∧
    (pyRound2 cfgW.longitude * 100).den = 1 ∧
    (pyRound2 cfgW.latitude * 100).den = 1 :=
  c8_site_coordinates_rounded envW cfgW [] ppW fnameW hdusW resW rfl

/-- C9: the WCS fit is always invoked with polynomial order 5 and the ZEA
projection, anchored at the resolved platepar's image centre
`(X_res/2, Y_res/2)` whose sky coordinate is obtained by projecting that
centre pixel — independently of the image data. -/
theorem c9_fit_order_and_anchor (env : ExtEnv) (config : Config)
    (table : List (String × Payload)) (fb : Platepar) (fname : String)
    (hdus : List Header) (res : RunResult)
    (h : add_fffits_metadata env config table fb fname hdus = .ok res) :
    res.fitCall.order = 5 ∧
    res.fitCall.projWcs = "ZEA" ∧
    res.fitCall.x0 = res.platepar_used.X_res / 2 ∧
    res.fitCall.y0 = res.platepar_used.Y_res / 2 ∧
    res.fitCall.ra0 =
      (env.xyToRaDecPP [res.fftime] [res.fitCall.x0] [res.fitCall.y0] [1]
        res.platepar_used false).1.headD 0 ∧
    res.fitCall.dec0 =
      (env.xyToRaDecPP [res.fftime] [res.fitCall.x0] [res.fitCall.y0] [1]
        res.platepar_used false).2.headD 0 := by
  obtain ⟨-, -, -, -, hfit, -⟩ := add_ok_inv env config table fb fname hdus res h
  rw [hfit]
  exact ⟨rfl, rfl, rfl, rfl, rfl, rfl⟩

/-- C9 witness, at the sample run. -/
theorem c9_witness :
    resW.fitCall.order = 5 ∧
    resW.fitCall.projWcs = "ZEA" ∧
    resW.fitCall.x0 = resW.platepar_used.X_res / 2 ∧
    resW.fitCall.y0 = resW.platepar_used.Y_res / 2 ∧
    resW.fitCall.ra0 =
      (envW.xyToRaDecPP [resW.fftime] [resW.fitCall.x0] [resW.fitCall.y0] [1]
        resW.platepar_used false).1.headD 0 ∧
    resW.fitCall.dec0 =
      (envW.xyToRaDecPP [resW.fftime] [resW.fitCall.x0] [resW.fitCall.y0] [1]
        resW.platepar_used false).2.headD 0 :=
  c9_fit_order_and_anchor envW cfgW [] ppW fnameW hdusW resW rfl

/-- C10: for an image whose basename has no entry in the recalibration table,
processing with that table gives exactly the same output as processing with
an empty table, and the resolution step logs the warning naming the image
(falling back to the default platepar). -/
theorem c10_missing_entry_matches_empty_table (env : ExtEnv) (config : Config)
    (table : List (String × Payload)) (fb : Platepar) (fname : String)
    (hdus : List Header)
    (hmiss : table.find? (fun kv => kv.1 == basename fname) = none) :
    add_fffits_metadata env config table fb fname hdus =
      add_fffits_metadata env config [] fb fname hdus ∧
    resolvePlatepar env table (basename fname) fb =
      .ok (fb, [warnMsg (basename fname)]) := by
  have hres : resolvePlatepar env table (basename fname) fb =
      .ok (fb, [warnMsg (basename fname)]) := by
    unfold resolvePlatepar
    rw [hmiss]
  refine ⟨?_, hres⟩
  unfold add_fffits_metadata
  rw [hres]
  rfl

/-- C10 witness: the sample table has no entry for the sample image, and the
run with it equals the run with the empty table. -/
theorem c10_witness :
    add_fffits_metadata envW cfgW tableW ppW fnameW hdusW =
      add_fffits_metadata envW cfgW [] ppW fnameW hdusW ∧
    resolvePlatepar envW tableW (basename fnameW) ppW =
      .ok (ppW, [warnMsg (basename fnameW)]) :=
  c10_missing_entry_matches_empty_table envW cfgW tableW ppW fnameW hdusW (by decide)

end FF
